import Mathlib

/-!
Verification of the `LCRProvider` telephony backend
(`src/api/services/telephony/providers/lcr_provider.py`).

The Python class is embedded shallowly: the provider object becomes a
structure, `config: Dict[str, Any]` becomes a record of optional fields,
exceptions become `Except PyError`, and the observable I/O performed by a
method (starting the background SIP client, actions on a websocket) is
returned as an explicit effect list alongside the result.  Python string
truthiness (`bool(s)` is false exactly on the empty string, `bool(None)`
is false) is modelled by `pyTruthy` / `pyTruthyOpt`.
-/

/-- Truthiness of a Python string: `bool(s)` is `False` iff `s` is empty. -/
def pyTruthy (s : String) : Bool := !s.isEmpty

/-- Truthiness of an optional Python string: `None` and `""` are falsy. -/
def pyTruthyOpt : Option String → Bool
  | none => false
  | some s => pyTruthy s

/-- An optional Python string is "empty" when it is `None` or `""`. -/
def pyEmptyOpt : Option String → Bool
  | none => true
  | some s => s.isEmpty

/-- The `from_numbers` configuration value: a single string or a sequence
of strings (`config.get("from_numbers", [])` in `__init__`). -/
inductive FromNumbers where
  | str (s : String)
  | list (l : List String)
deriving DecidableEq, Repr

/-- The configuration mapping consumed by `LCRProvider.__init__`.
A field is `none` when the key is absent from the dict. -/
structure Config where
  host : Option String
  port : Option Nat
  auth_token : Option String
  api_key : Option String
  from_numbers : Option FromNumbers
deriving DecidableEq, Repr

/-- The pyVoIP `VoIPPhone` object as constructed in `_get_sip_client`:
it records the connection parameters the code passes to it. -/
structure VoIPPhone where
  server : String
  port : Nat
  username : Option String
  password : Option String
deriving DecidableEq, Repr

/-- Python exceptions raised (or re-raised) by the provider's methods. -/
inductive PyError where
  | valueError (msg : String)
  | notImplementedError
  | exc (msg : String)
deriving DecidableEq, Repr

/-- Observable I/O side effects of a provider method.  `startSipClient`
stands for constructing the `VoIPPhone` and calling `.start()`, which
binds a socket and spawns the background SIP thread. -/
inductive Effect where
  | startSipClient
deriving DecidableEq, Repr

/-- The mutable state of an `LCRProvider` instance after `__init__`. -/
structure LCRProvider where
  host : String
  port : Nat
  password : Option String
  username : Option String
  from_numbers : List String
  sip_client : Option VoIPPhone
deriving DecidableEq, Repr

/-- `LCRProvider.__init__`: defaults `host` to `"trunksip11.lcrcom.es"`
and `port` to `5060`, maps `auth_token` to the SIP password and `api_key`
to the SIP username, wraps a string-valued `from_numbers` into a
single-element list, and leaves `sip_client` unset (`None`). -/
def LCRProvider.init (config : Config) : LCRProvider :=
  let fn := match config.from_numbers.getD (FromNumbers.list []) with
    | FromNumbers.str s => [s]
    | FromNumbers.list l => l
  { host := config.host.getD "trunksip11.lcrcom.es"
    port := config.port.getD 5060
    password := config.auth_token
    username := config.api_key
    from_numbers := fn
    sip_client := none }

/-- `validate_config`: `bool(self.host and self.password and self.username)`. -/
def LCRProvider.validate_config (p : LCRProvider) : Bool :=
  pyTruthy p.host && pyTruthyOpt p.password && pyTruthyOpt p.username

/-- `_get_sip_client`: lazy initialization of the SIP client.  If a client
already exists it is returned unchanged with no I/O; otherwise the
credentials are checked (`ValueError` if `validate_config` fails, before
any I/O) and only then is the `VoIPPhone` built and started.  The result
is the raised-or-returned value, the post-state of the provider, and the
list of I/O effects performed. -/
def LCRProvider.get_sip_client (p : LCRProvider) :
    Except PyError VoIPPhone × LCRProvider × List Effect :=
  match p.sip_client with
  | some c => (Except.ok c, p, [])
  | none =>
    if p.validate_config = false then
      (Except.error (PyError.valueError "LCR SIP credentials missing"), p, [])
    else
      let phone : VoIPPhone :=
        { server := p.host, port := p.port
          username := p.username, password := p.password }
      (Except.ok phone, { p with sip_client := some phone },
        [Effect.startSipClient])

/-- `_do_sip_call`: synchronous wrapper for dialing.  It obtains the SIP
client, then calls `phone.call(to_number)`; the external pyVoIP dial is a
parameter `dial` returning either the call's `callID` string or a raised
exception, which the wrapper logs and re-raises unchanged. -/
def LCRProvider.do_sip_call (p : LCRProvider)
    (dial : VoIPPhone → String → Except PyError String) (to_number : String) :
    Except PyError String × LCRProvider × List Effect :=
  match p.get_sip_client with
  | (Except.error e, p1, effs) => (Except.error e, p1, effs)
  | (Except.ok phone, p1, effs) =>
    match dial phone to_number with
    | Except.ok callID => (Except.ok callID, p1, effs)
    | Except.error e => (Except.error e, p1, effs)

/-- Result of a successful outbound call attempt
(`CallInitiationResult` from `api.services.telephony.base`). -/
structure CallInitiationResult where
  call_id : String
  status : String
  provider : String
  metadata : List (String × String)
deriving DecidableEq, Repr

/-- `initiate_call`: runs the blocking `_do_sip_call` on the executor and
awaits it; on success it builds a `CallInitiationResult` with the
optimistic status `"ringing"`, and on any exception it logs and
re-raises, returning no result. -/
def LCRProvider.initiate_call (p : LCRProvider)
    (dial : VoIPPhone → String → Except PyError String) (to_number : String) :
    Except PyError CallInitiationResult × LCRProvider × List Effect :=
  match p.do_sip_call dial to_number with
  | (Except.ok call_id, p1, effs) =>
      (Except.ok
        { call_id := call_id, status := "ringing", provider := "lcr"
          metadata := [("sip_host", p.host)] }, p1, effs)
  | (Except.error e, p1, effs) => (Except.error e, p1, effs)

/-- `get_call_status`: returns the optimistic constant snapshot
`{"status": "in-progress", "call_id": call_id}` without touching the
provider state and without raising. -/
def LCRProvider.get_call_status (_p : LCRProvider) (call_id : String) :
    List (String × String) :=
  [("status", "in-progress"), ("call_id", call_id)]

/-- `get_available_phone_numbers`: returns `self.from_numbers`. -/
def LCRProvider.get_available_phone_numbers (p : LCRProvider) : List String :=
  p.from_numbers

/-- `get_call_cost`: returns the constant `{"cost_usd": 0.0}`. -/
def LCRProvider.get_call_cost (_p : LCRProvider) (_call_id : String) :
    List (String × ℚ) :=
  [("cost_usd", 0)]

/-- `can_handle_webhook`: the classmethod returns `False` for every
payload and headers. -/
def LCRProvider.can_handle_webhook (_webhook_data : List (String × String))
    (_headers : List (String × String)) : Bool :=
  false

/-- Canonical inbound shape.  Modelled from the spec:
`NormalizedInboundData` is declared in `api.services.telephony.base`,
which is not part of the sources; per the spec its fields are caller
number, called number, provider call identifier and a raw payload
reference. -/
structure NormalizedInboundData where
  caller_number : String
  called_number : String
  provider_call_id : String
  raw_payload : List (String × String)
deriving DecidableEq, Repr

/-- `parse_inbound_webhook`: the static method unconditionally raises
`NotImplementedError`. -/
def LCRProvider.parse_inbound_webhook (_webhook_data : List (String × String)) :
    Except PyError NormalizedInboundData :=
  Except.error PyError.notImplementedError

/-- Actions the websocket handler can perform on the socket itself. -/
inductive WsAction where
  | accept
  | sendText (s : String)
  | sendBytes
  | close
deriving DecidableEq, Repr

/-- `handle_websocket`: awaits `websocket.accept()` and then calls
`logger.warning(...)`; it performs no other socket action and returns.
The first component is the ordered trace of socket actions, the second
the server-side log messages emitted. -/
def LCRProvider.handle_websocket (_p : LCRProvider) :
    List WsAction × List String :=
  ([WsAction.accept],
   ["LCR SIP does not support WebSocket media bridging yet."])

/-- Whether a socket trace ever sends anything to (or closes on) the peer
after the handshake: the only ways this handler could signal non-support
on the socket. -/
def signalsOnSocket (tr : List WsAction) : Bool :=
  tr.any fun a =>
    match a with
    | WsAction.sendText _ => true
    | WsAction.sendBytes => true
    | WsAction.close => true
    | WsAction.accept => false

/-- Program counter of one thread executing the unguarded lazy
initialization in `_get_sip_client`: first the `if not self.sip_client`
test, then (if the test saw no client) the creation-and-assignment. -/
inductive PC where
  | check
  | create
  | done
deriving DecidableEq, Repr

/-- Shared state of two concurrent callers of `_get_sip_client` on the
same provider: the shared `sip_client` field (session ids as numbers),
how many sessions have been created so far, and each thread's program
counter. -/
structure RaceState where
  client : Option Nat
  created : Nat
  pc1 : PC
  pc2 : PC
deriving DecidableEq, Repr

/-- One atomic step of a thread running `_get_sip_client`: the
`if not self.sip_client` read is one atomic action, and the
create-and-assign (`self.sip_client = VoIPPhone(...)`) is another; the
source has no lock between them. -/
def stepAt (pc : PC) (client : Option Nat) (created : Nat) :
    PC × Option Nat × Nat :=
  match pc with
  | PC.check => (if client.isSome then PC.done else PC.create, client, created)
  | PC.create => (PC.done, some (created + 1), created + 1)
  | PC.done => (PC.done, client, created)

/-- Interleaved step: `true` advances thread 1, `false` thread 2. -/
def raceStep (s : RaceState) (t : Bool) : RaceState :=
  if t then
    let r := stepAt s.pc1 s.client s.created
    { s with pc1 := r.1, client := r.2.1, created := r.2.2 }
  else
    let r := stepAt s.pc2 s.client s.created
    { s with pc2 := r.1, client := r.2.1, created := r.2.2 }

/-- Run a schedule of interleaved steps. -/
def runSched (s : RaceState) : List Bool → RaceState
  | [] => s
  | t :: ts => runSched (raceStep s t) ts

/-- Both threads about to run `_get_sip_client` for the first time on a
provider with no session yet. -/
def initRace : RaceState :=
  { client := none, created := 0, pc1 := PC.check, pc2 := PC.check }

/-- A concrete valid configuration used in witnesses. -/
def sampleValidConfig : Config :=
  { host := some "h", port := none, auth_token := some "p"
    api_key := some "u", from_numbers := none }

/-- Provider freshly initialized from `sampleValidConfig`. -/
def sampleP0 : LCRProvider := LCRProvider.init sampleValidConfig

/-- The `VoIPPhone` that `_get_sip_client` builds for `sampleP0`. -/
def samplePhone : VoIPPhone :=
  { server := "h", port := 5060, username := some "u", password := some "p" }

/-- `sampleP0` after its SIP client has been created. -/
def sampleP1 : LCRProvider := { sampleP0 with sip_client := some samplePhone }

/-- Claim C2: `validate_config` is pure — in this embedding it is a plain
function of the provider's fields, producing no effects and no new state,
matching the source which only reads `self.host`, `self.password`,
`self.username` — and it returns `false` if and only if at least one of
host, username (`api_key`) or password-equivalent (`auth_token`) is
missing or empty. -/
theorem validate_config_false_iff (p : LCRProvider) :
    p.validate_config = false ↔
      (p.host.isEmpty = true ∨ pyEmptyOpt p.password = true ∨
        pyEmptyOpt p.username = true) := by
  have hpw : pyTruthyOpt p.password = !pyEmptyOpt p.password := by
    cases p.password <;> simp [pyTruthyOpt, pyEmptyOpt, pyTruthy]
  have hus : pyTruthyOpt p.username = !pyEmptyOpt p.username := by
    cases p.username <;> simp [pyTruthyOpt, pyEmptyOpt, pyTruthy]
  cases hh : p.host.isEmpty <;> cases h1 : pyEmptyOpt p.password <;>
    cases h2 : pyEmptyOpt p.username <;>
    simp [LCRProvider.validate_config, pyTruthy, hpw, hus, hh, h1, h2]

/-- Claim C5: `parse_inbound_webhook` fails for every payload with the
capability-unsupported error (`NotImplementedError`, the spec's
`NotSupported`), never returning a placeholder `NormalizedInboundData`. -/
theorem parse_inbound_webhook_not_supported
    (webhook_data : List (String × String)) :
    LCRProvider.parse_inbound_webhook webhook_data =
      Except.error PyError.notImplementedError := rfl

/-- Claim C6: `get_call_status` never fails and returns the optimistic
snapshot `{"status": "in-progress", "call_id": call_id}` for every
call id; it is a total pure function of its arguments, with no state
change and no effects. -/
theorem get_call_status_optimistic (p : LCRProvider) (call_id : String) :
    p.get_call_status call_id =
      [("status", "in-progress"), ("call_id", call_id)] := rfl

/-- Claim C7: a string-valued `from_numbers` is wrapped into a
single-element list by `__init__`, so `get_available_phone_numbers`
returns that one number. -/
theorem from_numbers_string_wrapped (config : Config) (s : String)
    (h : config.from_numbers = some (FromNumbers.str s)) :
    (LCRProvider.init config).get_available_phone_numbers = [s] := by
  simp [LCRProvider.init, LCRProvider.get_available_phone_numbers, h]

/-- Witness for C7: the spec's scenario — config
`{host:"h", api_key:"u", auth_token:"p", from_numbers:"+15551230000"}`
lists exactly `["+15551230000"]`. -/
theorem from_numbers_string_wrapped_witness :
    (LCRProvider.init
      { host := some "h", port := none, auth_token := some "p"
        api_key := some "u"
        from_numbers := some (FromNumbers.str "+15551230000") }).get_available_phone_numbers
      = ["+15551230000"] :=
  from_numbers_string_wrapped _ _ rfl

/-- Claim C8: `can_handle_webhook` is a constant-false, side-effect-free
predicate: this backend claims no inbound payload, for any payload and
headers, so it can never double-claim a payload with another backend. -/
theorem can_handle_webhook_always_false
    (webhook_data headers : List (String × String)) :
    LCRProvider.can_handle_webhook webhook_data headers = false := rfl

/-- Claim C10: `get_call_cost` returns the constant `{"cost_usd": 0.0}`
for every call id, with no state change and no effects. -/
theorem get_call_cost_always_zero (p : LCRProvider) (call_id : String) :
    p.get_call_cost call_id = [("cost_usd", 0)] := rfl

/-- Helper: an optional Python string is truthy exactly when it is not
empty. -/
theorem pyTruthyOpt_eq_not_pyEmptyOpt (o : Option String) :
    pyTruthyOpt o = !pyEmptyOpt o := by
  cases o <;> simp [pyTruthyOpt, pyEmptyOpt, pyTruthy]

/-- Claim C1: for every destination number, if the blocking SIP dial
raises an exception, `initiate_call` re-raises and returns no
`CallInitiationResult` — a call is never reported `"ringing"` after a
dial exception (no partial success). -/
theorem initiate_call_no_partial_success (p : LCRProvider)
    (dial : VoIPPhone → String → Except PyError String) (to_number : String)
    (h : ∀ phone, ∃ e, dial phone to_number = Except.error e) :
    (∃ e, (p.initiate_call dial to_number).1 = Except.error e) ∧
      ∀ r, (p.initiate_call dial to_number).1 ≠ Except.ok r := by
  have key : ∃ e, (p.initiate_call dial to_number).1 = Except.error e := by
    unfold LCRProvider.initiate_call LCRProvider.do_sip_call
      LCRProvider.get_sip_client
    cases hc : p.sip_client with
    | some c =>
        obtain ⟨e, he⟩ := h c
        simp [he]
    | none =>
        by_cases hv : p.validate_config = false
        · simp [hv]
        · obtain ⟨e, he⟩ := h
            { server := p.host, port := p.port
              username := p.username, password := p.password }
          simp [hv, he]
  refine ⟨key, ?_⟩
  obtain ⟨e, he⟩ := key
  intro r hr
  rw [he] at hr
  exact Except.noConfusion hr

/-- Witness for C1: the spec's scenario — dialing `"+15557654321"` on a
session whose transport is unreachable (every dial raises) yields an
error and never an `Except.ok` result. -/
theorem initiate_call_no_partial_success_witness :
    (∃ e, (sampleP0.initiate_call
        (fun _ _ => Except.error (PyError.exc "transport unreachable"))
        "+15557654321").1 = Except.error e) ∧
      ∀ r, (sampleP0.initiate_call
        (fun _ _ => Except.error (PyError.exc "transport unreachable"))
        "+15557654321").1 ≠ Except.ok r :=
  initiate_call_no_partial_success sampleP0
    (fun _ _ => Except.error (PyError.exc "transport unreachable"))
    "+15557654321"
    (fun _ => ⟨PyError.exc "transport unreachable", rfl⟩)

/-- Claim C3: for every configuration in which host, username
(`api_key`) or password-equivalent (`auth_token`) is missing or empty,
`_get_sip_client` on the freshly initialized provider raises
`ValueError` (`ConfigInvalid`) with the provider state unchanged
(`sip_client` still `None`) and an empty I/O-effect list — it fails
fast before any I/O and creates no session. -/
theorem get_sip_client_config_invalid (config : Config)
    (h : ((config.host.getD "trunksip11.lcrcom.es").isEmpty
          || pyEmptyOpt config.auth_token || pyEmptyOpt config.api_key)
        = true) :
    (LCRProvider.init config).get_sip_client =
      (Except.error (PyError.valueError "LCR SIP credentials missing"),
        LCRProvider.init config, []) := by
  have e1 : (LCRProvider.init config).host =
      config.host.getD "trunksip11.lcrcom.es" := rfl
  have e2 : (LCRProvider.init config).password = config.auth_token := rfl
  have e3 : (LCRProvider.init config).username = config.api_key := rfl
  have hv : (LCRProvider.init config).validate_config = false := by
    unfold LCRProvider.validate_config
    rw [e1, e2, e3, pyTruthyOpt_eq_not_pyEmptyOpt, pyTruthyOpt_eq_not_pyEmptyOpt]
    simp only [Bool.or_eq_true] at h
    rcases h with (h1 | h2) | h3
    · simp [pyTruthy, h1]
    · simp [h2]
    · simp [h3]
  have hn : (LCRProvider.init config).sip_client = none := rfl
  unfold LCRProvider.get_sip_client
  rw [hn]
  simp [hv]

/-- Witness for C3: a configuration with no `api_key` fails fast with
the `ValueError`, no session and no I/O. -/
theorem get_sip_client_config_invalid_witness :
    (LCRProvider.init
      { host := some "h", port := none, auth_token := some "p"
        api_key := none, from_numbers := none }).get_sip_client =
      (Except.error (PyError.valueError "LCR SIP credentials missing"),
        LCRProvider.init
          { host := some "h", port := none, auth_token := some "p"
            api_key := none, from_numbers := none }, []) :=
  get_sip_client_config_invalid _ rfl

/-- Counterexample for C4: `_get_sip_client` has no single-creation
guard — the `if not self.sip_client` read and the assignment
`self.sip_client = VoIPPhone(...).start()` are separate actions with no
lock between them.  Under the interleaving check-1, check-2, create-1,
create-2 both concurrent first-use callers run to completion and TWO
sessions are created, refuting "two simultaneous callers never create
two sessions". -/
theorem get_sip_client_race_two_sessions :
    (runSched initRace [true, false, true, false]).created = 2 ∧
    (runSched initRace [true, false, true, false]).pc1 = PC.done ∧
    (runSched initRace [true, false, true, false]).pc2 = PC.done :=
  ⟨rfl, rfl, rfl⟩

/-- Claim C4 (amended): session creation is lazy check-then-act with no
single-creation guard; sequentially it is idempotent — once a call of
`_get_sip_client` has produced a session, every later non-interleaved
call returns that same session and the same provider state, creating
nothing and performing no further I/O — but two concurrent first-use
callers can interleave so that each creates a session (see the race
counterexample). -/
theorem get_sip_client_idempotent_after_creation (p p1 : LCRProvider)
    (phone : VoIPPhone) (effs : List Effect)
    (h : p.get_sip_client = (Except.ok phone, p1, effs)) :
    p1.get_sip_client = (Except.ok phone, p1, []) := by
  have hps : p1.sip_client = some phone := by
    unfold LCRProvider.get_sip_client at h
    cases hc : p.sip_client with
    | some c =>
        rw [hc] at h
        simp only [Prod.mk.injEq, Except.ok.injEq] at h
        rw [← h.2.1, hc, h.1]
    | none =>
        rw [hc] at h
        by_cases hv : p.validate_config = false
        · rw [if_pos hv] at h
          simp at h
        · rw [if_neg hv] at h
          simp only [Prod.mk.injEq, Except.ok.injEq] at h
          rw [← h.2.1, h.1]
  unfold LCRProvider.get_sip_client
  rw [hps]

/-- Witness for C4's amended theorem: on a provider whose session was
just created, a further `_get_sip_client` call returns the same session
and state with no new creation and no I/O. -/
theorem get_sip_client_idempotent_after_creation_witness :
    sampleP1.get_sip_client = (Except.ok samplePhone, sampleP1, []) :=
  get_sip_client_idempotent_after_creation sampleP0 sampleP1 samplePhone
    [Effect.startSipClient] rfl

/-- Counterexample for C9: `handle_websocket` performs exactly one
socket action — the accept handshake — and nothing else: no message and
no close is ever sent to the peer, so the backend does not "signal
non-support to the peer" on the socket; the only non-support notice is
the server-side log line. -/
theorem handle_websocket_no_signal_on_socket :
    (sampleP0.handle_websocket).1 = [WsAction.accept] ∧
    signalsOnSocket (sampleP0.handle_websocket).1 = false :=
  ⟨rfl, rfl⟩

/-- Claim C9 (amended): for every media-bridging socket connection, the
backend accepts the connection and returns immediately (no hang),
logging a non-support warning server-side; it sends nothing to the peer
on the socket. -/
theorem handle_websocket_accepts_and_logs (p : LCRProvider) :
    p.handle_websocket =
      ([WsAction.accept],
       ["LCR SIP does not support WebSocket media bridging yet."]) := rfl
